import Mathlib

/-!
# Verification of the GPIO keyword detector core

Shallow embedding of `GPIOKeywordDetector.cpp` (the GPIO wake-word detector of the
xmos avs-device-sdk): the audio-format validator, the `create` factory with its
preconditions, and the detection loop (trigger window computation, overrun recovery,
fatal-error termination, shutdown handling, observer notifications).

External collaborators (the shared audio stream reader, the wiringPi signal line, the
base class `AbstractKeywordDetector`) are modelled by environment inputs: each loop
iteration consumes one `IterEvent` carrying the observed shutdown flag, the outcome of
the blocking read, and the sampled GPIO level. The reader cursor (its `tell` position)
is tracked explicitly: a successful read of `n` samples advances it by `n`, and an
overrun resynchronizes it to an environment-provided position.
-/

namespace GPIOKwd

/-- Audio encodings. The `AudioFormat` container is declared outside the sampled
sources; the two encodings referenced by the detector sources are modelled. -/
inductive Encoding where
  | LPCM
  | OPUS
deriving DecidableEq, Repr

/-- Byte order of an audio format. -/
inductive Endianness where
  | LITTLE
  | BIG
deriving DecidableEq, Repr

/-- Modelled from the spec: the `AudioFormat` record (spec data model) with the five
fields the validator inspects: encoding, endianness, sample rate, sample size in bits,
and channel count. The container type itself is declared outside the sampled sources. -/
structure AudioFormat where
  encoding : Encoding
  endianness : Endianness
  sampleRateHz : Nat
  sampleSizeInBits : Nat
  numChannels : Nat
deriving DecidableEq, Repr

/-- Number of m_maxSamplesPerPush blocks to rewind when the wake word is detected. -/
def WW_REWIND_SAMPLES : Nat := 10

/-- The fixed wake-word label. -/
def WAKEWORD_STRING : String := "alexa"

/-- The number of hertz per kilohertz. -/
def HERTZ_PER_KILOHERTZ : Nat := 1000

/-- The GPIO WW compatible AVS sample rate of 16 kHz. -/
def GPIO_COMPATIBLE_SAMPLE_RATE : Nat := 16000

/-- The GPIO WW compatible bits per sample of 16. -/
def GPIO_COMPATIBLE_SAMPLE_SIZE_IN_BITS : Nat := 16

/-- The GPIO WW compatible number of channels, which is 1. -/
def GPIO_COMPATIBLE_NUM_CHANNELS : Nat := 1

/-- The GPIO WW compatible audio encoding of LPCM. -/
def GPIO_COMPATIBLE_ENCODING : Encoding := Encoding.LPCM

/-- The GPIO WW compatible endianness, which is little endian. -/
def GPIO_COMPATIBLE_ENDIANNESS : Endianness := Endianness.LITTLE

/-- Checks whether an `AudioFormat` is compatible with GPIO WW: the chain of five
field checks of `isAudioFormatCompatibleWithGPIOWW` in the source, each returning
false on mismatch, true when all pass. -/
def isAudioFormatCompatibleWithGPIOWW (audioFormat : AudioFormat) : Bool :=
  if GPIO_COMPATIBLE_ENCODING ≠ audioFormat.encoding then false
  else if GPIO_COMPATIBLE_ENDIANNESS ≠ audioFormat.endianness then false
  else if GPIO_COMPATIBLE_SAMPLE_RATE ≠ audioFormat.sampleRateHz then false
  else if GPIO_COMPATIBLE_SAMPLE_SIZE_IN_BITS ≠ audioFormat.sampleSizeInBits then false
  else if GPIO_COMPATIBLE_NUM_CHANNELS ≠ audioFormat.numChannels then false
  else true

/-- Modelled from the spec: `AbstractKeywordDetector::isByteswappingRequired` is
declared in the base class, outside the sampled sources. Per the `create` call site
and its comment, byte swapping is required exactly when the native endianness of the
host platform differs from the endianness of the supplied format. The platform
endianness is passed in as a parameter (true means little endian). -/
def isByteswappingRequired (isPlatformLittleEndian : Bool) (audioFormat : AudioFormat) : Bool :=
  isPlatformLittleEndian != decide (audioFormat.endianness = Endianness.LITTLE)

/-- The detector object produced by `create`: the stream handle it was constructed
with (handles are modelled as natural numbers) and the derived per-iteration sample
count `m_maxSamplesPerPush`, computed once in the constructor initializer list. -/
structure GPIOKeywordDetector where
  streamId : Nat
  maxSamplesPerPush : Nat
deriving DecidableEq, Repr

/-- Environment outcomes consumed by `GPIOKeywordDetector::init`: whether the
wiringPi setup call succeeds and whether `createReader` on the stream returns a
reader. Both are external collaborators. -/
structure InitEnv where
  wiringPiSetupOk : Bool
  createReaderOk : Bool
deriving DecidableEq, Repr

/-- The observable result of the `create` factory: the returned instance (none on any
failure), whether a stream reader was created, and whether the detection thread was
started. -/
structure CreateResult where
  detector : Option GPIOKeywordDetector
  readerCreated : Bool
  threadStarted : Bool
deriving DecidableEq, Repr

/-- The `GPIOKeywordDetector` constructor: it stores the stream and computes
`m_maxSamplesPerPush = (sampleRateHz / HERTZ_PER_KILOHERTZ) * msToPushPerIteration`
once, in its initializer list, from its own `msToPushPerIteration` parameter. -/
def constructDetector (s : Nat) (audioFormat : AudioFormat)
    (msToPushPerIteration : Nat) : GPIOKeywordDetector :=
  ⟨s, (audioFormat.sampleRateHz / HERTZ_PER_KILOHERTZ) * msToPushPerIteration⟩

/-- The `GPIOKeywordDetector::create` factory followed by `init`, as in the source:
null stream, required byte swapping, incompatible format, wiringPi setup failure or
reader-creation failure each yield no instance; otherwise a detector is constructed,
a reader is created and the detection thread is started. The constructor call in the
source passes only four arguments (stream, the two observer sets, audioFormat), so
the `msToPushPerIteration` parameter of the constructor is filled by its declaration
default from the header, which is outside the sampled sources and is passed here as
`defaultMsToPushPerIteration`; the `msToPushPerIteration` argument of `create`
itself is unused, exactly as in the source. -/
def create (stream : Option Nat) (isPlatformLittleEndian : Bool) (audioFormat : AudioFormat)
    (env : InitEnv) (defaultMsToPushPerIteration : Nat)
    (msToPushPerIteration : Nat) : CreateResult :=
  match stream with
  | none => ⟨none, false, false⟩
  | some s =>
    if isByteswappingRequired isPlatformLittleEndian audioFormat then ⟨none, false, false⟩
    else if !(isAudioFormatCompatibleWithGPIOWW audioFormat) then ⟨none, false, false⟩
    else
      let detector : GPIOKeywordDetector :=
        constructDetector s audioFormat defaultMsToPushPerIteration
      if !env.wiringPiSetupOk then ⟨none, false, false⟩
      else if !env.createReaderOk then ⟨none, false, false⟩
      else ⟨some detector, true, true⟩

/-- Outcome of one blocking `readFromStream` call, as observed by the loop body:
a successful read of `wordsRead` samples (0 on a timeout), an overrun after which the
reader cursor sits at the resynchronized position, or a non-overrun fatal failure. -/
inductive ReadOutcome where
  | ok (wordsRead : Nat)
  | overrun (resyncPos : Nat)
  | fatalError
deriving DecidableEq, Repr

/-- Environment input of one loop iteration: the value of `m_isShuttingDown` observed
at the top of the iteration, the outcome of the read, and the GPIO level sampled if
`digitalRead` is reached (true models HIGH). -/
structure IterEvent where
  shuttingDown : Bool
  outcome : ReadOutcome
  gpioHigh : Bool
deriving DecidableEq, Repr

/-- Externally visible detector states of `KeyWordDetectorStateObserverInterface`
used by this component. -/
inductive DetectorState where
  | ACTIVE
  | ERROR
deriving DecidableEq, Repr

/-- One observer notification: either a state-observer notification or a keyword
notification carrying the stream handle, the keyword label, and the begin and end
sample indices of the detection window. -/
inductive Notification where
  | state (s : DetectorState)
  | keyword (streamId : Nat) (kw : String) (beginIndex endIndex : Nat)
deriving DecidableEq, Repr

/-- Loop-local mutable state: `m_beginIndexOfStreamReader` (the origin reference) and
the absolute reader cursor (the value `m_streamReader->tell()` would return). -/
structure LoopState where
  beginIndexOfStreamReader : Nat
  cursor : Nat
deriving DecidableEq, Repr

/-- Modelled from the spec: `AbstractKeywordDetector::readFromStream` is declared in
the base class, outside the sampled sources. Per the spec error-handling design, a
non-overrun fatal read failure is surfaced to the state observers as an error state
and sets the error flag; overruns and successful reads set no flag. Returns the state
notifications emitted during the read and the value of `didErrorOccur`. -/
def readFromStream (outcome : ReadOutcome) : List Notification × Bool :=
  match outcome with
  | ReadOutcome.fatalError => ([Notification.state DetectorState.ERROR], true)
  | _ => ([], false)

/-- Result of one iteration of the while body: the new loop state, the notifications
emitted during the iteration, whether the body executed `break`, and whether the GPIO
line was read (`digitalRead` reached). -/
structure IterResult where
  state : LoopState
  notifs : List Notification
  brk : Bool
  gpioRead : Bool
deriving DecidableEq, Repr

/-- One pass of the while body of `detectionLoop`: call `readFromStream`; on
`didErrorOccur` break; on OVERRUN update `m_beginIndexOfStreamReader` to the
resynchronized cursor; on `wordsRead > 0` read the GPIO line and, when HIGH, notify
the keyword observers with the rewind window ending at the current cursor. -/
def loopIter (maxSamplesPerPush streamId : Nat) (st : LoopState) (ev : IterEvent) :
    IterResult :=
  let read := readFromStream ev.outcome
  let didErrorOccur := read.2
  if didErrorOccur then
    ⟨st, read.1, true, false⟩
  else
    match ev.outcome with
    | ReadOutcome.fatalError => ⟨st, read.1, true, false⟩
    | ReadOutcome.overrun p => ⟨⟨p, p⟩, read.1, false, false⟩
    | ReadOutcome.ok n =>
      let cursor := st.cursor + n
      if 0 < n then
        if ev.gpioHigh then
          let rewind := maxSamplesPerPush * WW_REWIND_SAMPLES
          let beginIndex := if cursor < rewind then 0 else cursor - rewind
          ⟨⟨st.beginIndexOfStreamReader, cursor⟩,
            read.1 ++ [Notification.keyword streamId WAKEWORD_STRING beginIndex cursor],
            false, true⟩
        else ⟨⟨st.beginIndexOfStreamReader, cursor⟩, read.1, false, true⟩
      else ⟨⟨st.beginIndexOfStreamReader, cursor⟩, read.1, false, false⟩

/-- Result of running the while loop over a trace: final loop state, notifications
emitted inside the loop, whether the loop exited within the trace (shutdown observed
or `break`), and whether `m_streamReader->close()` has run (it runs exactly when the
loop function got past the loop). -/
structure RunResult where
  state : LoopState
  notifs : List Notification
  exited : Bool
  readerClosed : Bool
deriving DecidableEq, Repr

/-- The while loop of `detectionLoop` over a finite trace of iteration events. The
shutdown flag is tested at the top of each iteration; a set flag exits the loop and
the reader is closed. An exhausted trace means the loop is still running, so
`exited` and `readerClosed` are false there. -/
def runLoop (maxSamplesPerPush streamId : Nat) : LoopState → List IterEvent → RunResult
  | st, [] => ⟨st, [], false, false⟩
  | st, ev :: evs =>
    if ev.shuttingDown then ⟨st, [], true, true⟩
    else
      let r := loopIter maxSamplesPerPush streamId st ev
      if r.brk then ⟨r.state, r.notifs, true, true⟩
      else
        let rest := runLoop maxSamplesPerPush streamId r.state evs
        ⟨rest.state, r.notifs ++ rest.notifs, rest.exited, rest.readerClosed⟩

/-- `GPIOKeywordDetector::detectionLoop`: record the current reader position as the
origin reference, notify the state observers with ACTIVE, allocate the block buffer,
then run the while loop; these first steps run unconditionally before the first test
of the shutdown flag. -/
def detectionLoop (maxSamplesPerPush streamId initialTell : Nat)
    (evs : List IterEvent) : RunResult :=
  let st0 : LoopState := ⟨initialTell, initialTell⟩
  let r := runLoop maxSamplesPerPush streamId st0 evs
  ⟨r.state, Notification.state DetectorState.ACTIVE :: r.notifs, r.exited, r.readerClosed⟩

/-- All notifications observable from a `create` call: none unless the detection
thread was started, in which case they are those of the detection loop run with the
constructed per-iteration sample count and stream handle. -/
def runDetector (r : CreateResult) (initialTell : Nat) (evs : List IterEvent) :
    List Notification :=
  match r.detector with
  | some d =>
    if r.threadStarted then (detectionLoop d.maxSamplesPerPush d.streamId initialTell evs).notifs
    else []
  | none => []

/-- Claim C4: every `AudioFormat` whose encoding, endianness, sample rate, sample
size in bits, or channel count differs from the supported profile (LPCM, little
endian, 16000 Hz, 16 bits, mono) fails the validator, and `create` then returns no
instance; a format matching all five fields passes the validator. The validator is a
pure predicate, so no coercion or normalization of the format occurs. -/
theorem gpio_C4_format_validator (f : AudioFormat) :
    (isAudioFormatCompatibleWithGPIOWW f = true ↔
      (f.encoding = GPIO_COMPATIBLE_ENCODING ∧ f.endianness = GPIO_COMPATIBLE_ENDIANNESS ∧
       f.sampleRateHz = GPIO_COMPATIBLE_SAMPLE_RATE ∧
       f.sampleSizeInBits = GPIO_COMPATIBLE_SAMPLE_SIZE_IN_BITS ∧
       f.numChannels = GPIO_COMPATIBLE_NUM_CHANNELS)) ∧
    (isAudioFormatCompatibleWithGPIOWW f = false →
      ∀ (s : Nat) (p : Bool) (env : InitEnv) (dms ms : Nat),
        (create (some s) p f env dms ms).detector = none) := by
  refine ⟨?_, ?_⟩
  · unfold isAudioFormatCompatibleWithGPIOWW
    split_ifs with h1 h2 h3 h4 h5
    · exact iff_of_false (by simp) fun h => h1 h.1.symm
    · exact iff_of_false (by simp) fun h => h2 h.2.1.symm
    · exact iff_of_false (by simp) fun h => h3 h.2.2.1.symm
    · exact iff_of_false (by simp) fun h => h4 h.2.2.2.1.symm
    · exact iff_of_false (by simp) fun h => h5 h.2.2.2.2.symm
    · exact iff_of_true rfl ⟨(not_ne_iff.mp h1).symm, (not_ne_iff.mp h2).symm,
        (not_ne_iff.mp h3).symm, (not_ne_iff.mp h4).symm, (not_ne_iff.mp h5).symm⟩
  · intro hfail s p env dms ms
    simp only [create, hfail]
    split <;> rfl

/-- Witness for claim C4 at a concrete big-endian format: the validator fails and
`create` returns no instance. -/
theorem gpio_C4_format_validator_witness :
    (create (some 3) true ⟨Encoding.LPCM, Endianness.BIG, 16000, 16, 1⟩
      ⟨true, true⟩ 10 10).detector = none :=
  (gpio_C4_format_validator ⟨Encoding.LPCM, Endianness.BIG, 16000, 16, 1⟩).2
    (by decide) 3 true ⟨true, true⟩ 10 10

/-- Claim C8: `create` with a null stream handle returns no instance, creates no
reader, starts no thread, and no observer is ever notified on its behalf. -/
theorem gpio_C8_null_stream (p : Bool) (f : AudioFormat) (env : InitEnv) (dms ms t : Nat)
    (evs : List IterEvent) :
    create none p f env dms ms = ⟨none, false, false⟩ ∧
    runDetector (create none p f env dms ms) t evs = [] :=
  ⟨rfl, rfl⟩

/-- Claim C10: whenever byte swapping relative to the native endianness of the host
platform would be required, `create` returns no instance, before the profile check is
even consulted. -/
theorem gpio_C10_byteswap_precondition (p : Bool) (f : AudioFormat) (s : Nat)
    (env : InitEnv) (dms ms : Nat) (h : isByteswappingRequired p f = true) :
    (create (some s) p f env dms ms).detector = none := by
  simp [create, h]

/-- Witness for claim C10: on a big-endian platform, a format that exactly matches
the little-endian supported profile still yields no instance. -/
theorem gpio_C10_byteswap_precondition_witness :
    isByteswappingRequired false ⟨Encoding.LPCM, Endianness.LITTLE, 16000, 16, 1⟩ = true ∧
    isAudioFormatCompatibleWithGPIOWW ⟨Encoding.LPCM, Endianness.LITTLE, 16000, 16, 1⟩ = true ∧
    (create (some 3) false ⟨Encoding.LPCM, Endianness.LITTLE, 16000, 16, 1⟩
      ⟨true, true⟩ 10 10).detector = none :=
  ⟨by decide, by decide,
    gpio_C10_byteswap_precondition false ⟨Encoding.LPCM, Endianness.LITTLE, 16000, 16, 1⟩
      3 ⟨true, true⟩ 10 10 (by decide)⟩

/-- Claim C3 fails on the code: the constructor call in `create` passes only four
arguments, so the header-declared default fills the constructor parameter
`msToPushPerIteration` and the `msToPushPerIteration` argument given to `create`
never reaches `m_maxSamplesPerPush`. At the failing input (a valid 16 kHz creation
asking for 20 ms per iteration), the result is identical to a call asking for 77 ms,
the constructed detector is the one built from the header default, and its
per-iteration sample count is `(16000 / 1000) * defaultMs = 16 * defaultMs`,
whatever the header default is, instead of the claimed `16 * 20 = 320`. -/
theorem gpio_C3_ms_argument_ignored :
    (∀ defaultMs : Nat,
      create (some 3) true ⟨Encoding.LPCM, Endianness.LITTLE, 16000, 16, 1⟩
          ⟨true, true⟩ defaultMs 20 =
        create (some 3) true ⟨Encoding.LPCM, Endianness.LITTLE, 16000, 16, 1⟩
          ⟨true, true⟩ defaultMs 77) ∧
    (∀ defaultMs : Nat,
      (create (some 3) true ⟨Encoding.LPCM, Endianness.LITTLE, 16000, 16, 1⟩
          ⟨true, true⟩ defaultMs 20).detector =
        some (constructDetector 3 ⟨Encoding.LPCM, Endianness.LITTLE, 16000, 16, 1⟩
          defaultMs)) ∧
    (∀ defaultMs : Nat,
      (constructDetector 3 ⟨Encoding.LPCM, Endianness.LITTLE, 16000, 16, 1⟩
        defaultMs).maxSamplesPerPush = 16 * defaultMs) :=
  ⟨fun _ => rfl, fun _ => rfl, fun _ => rfl⟩

/-- No ACTIVE state notification is emitted by an iteration of the while body. -/
lemma loopIter_no_active (msp sid : Nat) (st : LoopState) (ev : IterEvent) :
    Notification.state DetectorState.ACTIVE ∉ (loopIter msp sid st ev).notifs := by
  obtain ⟨sd, oc, g⟩ := ev
  cases oc with
  | ok n =>
    simp only [loopIter, readFromStream]
    split_ifs <;> simp
  | overrun p => simp [loopIter, readFromStream]
  | fatalError => simp [loopIter, readFromStream]

/-- No ACTIVE state notification is emitted anywhere inside the while loop. -/
lemma runLoop_no_active (msp sid : Nat) :
    ∀ (evs : List IterEvent) (st : LoopState),
      Notification.state DetectorState.ACTIVE ∉ (runLoop msp sid st evs).notifs := by
  intro evs
  induction evs with
  | nil => intro st; simp [runLoop]
  | cons ev evs ih =>
    intro st
    simp only [runLoop]
    split_ifs with h1 h2
    · simp
    · exact loopIter_no_active msp sid st ev
    · intro hmem
      rcases List.mem_append.mp hmem with hm | hm
      · exact loopIter_no_active msp sid st ev hm
      · exact ih _ hm

/-- The reader is closed exactly when the loop exited within the trace. -/
lemma runLoop_closed_eq_exited (msp sid : Nat) :
    ∀ (evs : List IterEvent) (st : LoopState),
      (runLoop msp sid st evs).readerClosed = (runLoop msp sid st evs).exited := by
  intro evs
  induction evs with
  | nil => intro st; rfl
  | cons ev evs ih =>
    intro st
    simp only [runLoop]
    split_ifs
    · rfl
    · rfl
    · exact ih _

/-- Characterization of keyword notifications emitted by one iteration: they carry
the stream handle, the fixed label, and a begin index computed by the guarded rewind
subtraction from the end index. -/
lemma loopIter_keyword_mem (msp sid : Nat) (st : LoopState) (ev : IterEvent)
    (h : Nat) (kw : String) (b e : Nat)
    (hmem : Notification.keyword h kw b e ∈ (loopIter msp sid st ev).notifs) :
    h = sid ∧ kw = WAKEWORD_STRING ∧
      b = (if e < msp * WW_REWIND_SAMPLES then 0 else e - msp * WW_REWIND_SAMPLES) := by
  obtain ⟨sd, oc, g⟩ := ev
  cases oc with
  | ok n =>
    rcases Nat.eq_zero_or_pos n with hn | hn
    · subst hn
      simp [loopIter, readFromStream] at hmem
    · cases g with
      | false => simp [loopIter, readFromStream, hn] at hmem
      | true =>
        simp [loopIter, readFromStream, hn] at hmem
        obtain ⟨h1, h2, h3, h4⟩ := hmem
        subst h4
        exact ⟨h1, h2, h3⟩
  | overrun p => simp [loopIter, readFromStream] at hmem
  | fatalError => simp [loopIter, readFromStream] at hmem

/-- Characterization of keyword notifications emitted anywhere inside the loop. -/
lemma runLoop_keyword_mem (msp sid : Nat) :
    ∀ (evs : List IterEvent) (st : LoopState) (h : Nat) (kw : String) (b e : Nat),
      Notification.keyword h kw b e ∈ (runLoop msp sid st evs).notifs →
      h = sid ∧ kw = WAKEWORD_STRING ∧
        b = (if e < msp * WW_REWIND_SAMPLES then 0 else e - msp * WW_REWIND_SAMPLES) := by
  intro evs
  induction evs with
  | nil =>
    intro st h kw b e hmem
    simp [runLoop] at hmem
  | cons ev evs ih =>
    intro st h kw b e hmem
    simp only [runLoop] at hmem
    split_ifs at hmem
    · simp at hmem
    · exact loopIter_keyword_mem msp sid st ev h kw b e hmem
    · rcases List.mem_append.mp hmem with hm | hm
      · exact loopIter_keyword_mem msp sid st ev h kw b e hm
      · exact ih _ h kw b e hm

/-- Claim C1: every keyword notification produced by the detection loop carries the
stream handle and the fixed label, and its window satisfies
`beginIndex = max 0 (endIndex - maxSamplesPerPush * WW_REWIND_SAMPLES)` and
`beginIndex ≤ endIndex`; moreover a trigger observed after a successful read of
`n > 0` samples notifies with `endIndex` equal to the reader position at trigger
time (the cursor advanced by the read). -/
theorem gpio_C1_detection_window (msp sid t : Nat) (evs : List IterEvent) :
    (∀ (h : Nat) (kw : String) (b e : Nat),
      Notification.keyword h kw b e ∈ (detectionLoop msp sid t evs).notifs →
      h = sid ∧ kw = WAKEWORD_STRING ∧
        (b : Int) = max 0 ((e : Int) - ((msp * WW_REWIND_SAMPLES : Nat) : Int)) ∧
        b ≤ e) ∧
    (∀ (st : LoopState) (n : Nat), 0 < n →
      (loopIter msp sid st ⟨false, ReadOutcome.ok n, true⟩).notifs =
        [Notification.keyword sid WAKEWORD_STRING
          (if st.cursor + n < msp * WW_REWIND_SAMPLES then 0
            else st.cursor + n - msp * WW_REWIND_SAMPLES) (st.cursor + n)]) := by
  constructor
  · intro h kw b e hmem
    have hmem2 : Notification.keyword h kw b e ∈ (runLoop msp sid ⟨t, t⟩ evs).notifs := by
      simpa [detectionLoop] using hmem
    obtain ⟨hh, hkw, hb⟩ := runLoop_keyword_mem msp sid evs ⟨t, t⟩ h kw b e hmem2
    refine ⟨hh, hkw, ?_, ?_⟩
    · rcases lt_or_ge e (msp * WW_REWIND_SAMPLES) with hlt | hge
      · rw [hb, if_pos hlt]
        have hle : (e : Int) - ((msp * WW_REWIND_SAMPLES : Nat) : Int) ≤ 0 := by
          have := Int.ofNat_le.mpr (Nat.le_of_lt hlt)
          omega
        rw [max_eq_left hle]
        rfl
      · rw [hb, if_neg (not_lt.mpr hge)]
        have hge2 : ((msp * WW_REWIND_SAMPLES : Nat) : Int) ≤ (e : Int) :=
          Int.ofNat_le.mpr hge
        rw [max_eq_right (by omega)]
        omega
    · rcases lt_or_ge e (msp * WW_REWIND_SAMPLES) with hlt | hge
      · rw [hb, if_pos hlt]; exact Nat.zero_le e
      · rw [hb, if_neg (not_lt.mpr hge)]; exact Nat.sub_le e _
  · intro st n hn
    simp [loopIter, readFromStream, hn]

/-- Witness for claim C1: a trigger after reading 320 samples from position 0 with a
rewind of 1600 samples yields the window clamped at 0. -/
theorem gpio_C1_detection_window_witness :
    (7 : Nat) = 7 ∧ WAKEWORD_STRING = WAKEWORD_STRING ∧
      (((0 : Nat) : Int) = max 0 (((320 : Nat) : Int) -
        ((160 * WW_REWIND_SAMPLES : Nat) : Int))) ∧ (0 : Nat) ≤ 320 :=
  (gpio_C1_detection_window 160 7 0 [⟨false, ReadOutcome.ok 320, true⟩]).1
    7 WAKEWORD_STRING 0 320 (by decide)

/-- Claim C2: a non-overrun fatal read failure (the read sets `didErrorOccur`)
terminates the loop at once: the remaining trace is never consumed (no retry), the
failure is surfaced to the state observers as an ERROR notification, and the reader
is closed. -/
theorem gpio_C2_fatal_read_error (msp sid : Nat) (st : LoopState) (ev : IterEvent)
    (evs : List IterEvent) (hs : ev.shuttingDown = false)
    (ho : ev.outcome = ReadOutcome.fatalError) :
    runLoop msp sid st (ev :: evs) =
      ⟨st, [Notification.state DetectorState.ERROR], true, true⟩ := by
  simp [runLoop, loopIter, readFromStream, hs, ho]

/-- Witness for claim C2: a fatal read error on the first iteration ends the run with
a single ERROR notification even though a further successful event follows in the
trace. -/
theorem gpio_C2_fatal_read_error_witness :
    runLoop 160 7 ⟨0, 0⟩ (⟨false, ReadOutcome.fatalError, false⟩ ::
        [⟨false, ReadOutcome.ok 160, true⟩]) =
      ⟨⟨0, 0⟩, [Notification.state DetectorState.ERROR], true, true⟩ :=
  gpio_C2_fatal_read_error 160 7 ⟨0, 0⟩ ⟨false, ReadOutcome.fatalError, false⟩
    [⟨false, ReadOutcome.ok 160, true⟩] rfl rfl

/-- Claim C5: an OVERRUN read outcome neither terminates the loop nor produces any
notification; the origin reference and cursor are both set to the resynchronized
position and the loop continues with the remaining trace; a `break` happens only on
the fatal-error outcome. -/
theorem gpio_C5_overrun_recovery (msp sid : Nat) (st : LoopState) (ev : IterEvent)
    (evs : List IterEvent) (p : Nat) (hs : ev.shuttingDown = false)
    (ho : ev.outcome = ReadOutcome.overrun p) :
    runLoop msp sid st (ev :: evs) = runLoop msp sid ⟨p, p⟩ evs ∧
    (loopIter msp sid st ev).notifs = [] ∧
    (loopIter msp sid st ev).brk = false ∧
    (∀ ev₁ : IterEvent, ((loopIter msp sid st ev₁).brk = true ↔
      ev₁.outcome = ReadOutcome.fatalError)) := by
  refine ⟨?_, ?_, ?_, ?_⟩
  · simp [runLoop, loopIter, readFromStream, hs, ho]
  · simp [loopIter, readFromStream, ho]
  · simp [loopIter, readFromStream, ho]
  · intro ev₁
    obtain ⟨sd1, oc1, g1⟩ := ev₁
    cases oc1 with
    | ok n =>
      rcases Nat.eq_zero_or_pos n with hn | hn
      · subst hn
        simp [loopIter, readFromStream]
      · cases g1 <;> simp [loopIter, readFromStream, hn]
    | overrun q => simp [loopIter, readFromStream]
    | fatalError => simp [loopIter, readFromStream]

/-- Witness for claim C5: an overrun resynchronizing to position 5 continues the run
exactly as a fresh run from origin and cursor 5 over the remaining trace. -/
theorem gpio_C5_overrun_recovery_witness :
    runLoop 160 7 ⟨0, 0⟩ (⟨false, ReadOutcome.overrun 5, false⟩ ::
        [⟨false, ReadOutcome.ok 160, true⟩]) =
      runLoop 160 7 ⟨5, 5⟩ [⟨false, ReadOutcome.ok 160, true⟩] :=
  (gpio_C5_overrun_recovery 160 7 ⟨0, 0⟩ ⟨false, ReadOutcome.overrun 5, false⟩
    [⟨false, ReadOutcome.ok 160, true⟩] 5 rfl rfl).1

/-- Claim C6: a started detection loop delivers exactly one ACTIVE state
notification, as the very first notification of the run, so it precedes every
keyword notification of that worker, and ACTIVE is never delivered again. -/
theorem gpio_C6_active_exactly_once (msp sid t : Nat) (evs : List IterEvent) :
    (detectionLoop msp sid t evs).notifs.head? =
      some (Notification.state DetectorState.ACTIVE) ∧
    (detectionLoop msp sid t evs).notifs.count
      (Notification.state DetectorState.ACTIVE) = 1 := by
  constructor
  · rfl
  · have hno := runLoop_no_active msp sid evs ⟨t, t⟩
    have h0 : ((runLoop msp sid ⟨t, t⟩ evs).notifs).count
        (Notification.state DetectorState.ACTIVE) = 0 := List.count_eq_zero.mpr hno
    simp [detectionLoop, List.count_cons, h0]

/-- Claim C7 as stated is false on the code: the single STARTING pass (recording the
origin, notifying ACTIVE, allocating the block buffer) is NOT guarded by a shutdown
check; with the shutdown flag already set at every observation of the trace, the
loop function still emits the ACTIVE notification before exiting. -/
theorem gpio_C7_shutdown_check_counterexample :
    (detectionLoop 160 7 0 [⟨true, ReadOutcome.ok 0, false⟩]).notifs =
      [Notification.state DetectorState.ACTIVE] ∧
    [Notification.state DetectorState.ACTIVE] ≠ ([] : List Notification) :=
  ⟨by decide, by decide⟩

/-- Claim C7 (amended): the shutdown flag is checked at the top of every while
iteration; once observed set, the loop exits regardless of sub-state with no further
notifications and the reader is closed before the loop function returns; the single
STARTING pass runs unconditionally before the first check, so the ACTIVE
notification always heads the run. -/
theorem gpio_C7_amended_shutdown_check (msp sid : Nat) (st : LoopState) (ev : IterEvent)
    (evs : List IterEvent) (hs : ev.shuttingDown = true) :
    runLoop msp sid st (ev :: evs) = ⟨st, [], true, true⟩ ∧
    (∀ (t : Nat) (evs₀ : List IterEvent),
      (detectionLoop msp sid t evs₀).notifs.head? =
        some (Notification.state DetectorState.ACTIVE)) ∧
    (∀ (t : Nat) (evs₀ : List IterEvent),
      (detectionLoop msp sid t evs₀).exited = true →
        (detectionLoop msp sid t evs₀).readerClosed = true) := by
  refine ⟨?_, ?_, ?_⟩
  · simp [runLoop, hs]
  · intro t evs₀
    rfl
  · intro t evs₀ hex
    show (runLoop msp sid ⟨t, t⟩ evs₀).readerClosed = true
    rw [runLoop_closed_eq_exited]
    exact hex

/-- Witness for the amended claim C7: a set shutdown flag at the top of an iteration
ends the run at once, ignoring the rest of the trace, with the reader closed. -/
theorem gpio_C7_amended_shutdown_check_witness :
    runLoop 160 7 ⟨0, 0⟩ (⟨true, ReadOutcome.ok 160, true⟩ ::
        [⟨false, ReadOutcome.ok 160, true⟩]) = ⟨⟨0, 0⟩, [], true, true⟩ :=
  (gpio_C7_amended_shutdown_check 160 7 ⟨0, 0⟩ ⟨true, ReadOutcome.ok 160, true⟩
    [⟨false, ReadOutcome.ok 160, true⟩] rfl).1

/-- Claim C9: an error-free read of 0 samples is a no-op iteration: the loop state is
unchanged, nothing is notified, the loop neither breaks nor reads the GPIO line, and
the run continues exactly as on the remaining trace; the GPIO line is read precisely
in iterations whose read succeeded with more than 0 samples. -/
theorem gpio_C9_zero_read_noop (msp sid : Nat) (st : LoopState) (ev : IterEvent)
    (evs : List IterEvent) (hs : ev.shuttingDown = false)
    (ho : ev.outcome = ReadOutcome.ok 0) :
    (loopIter msp sid st ev).state = st ∧
    (loopIter msp sid st ev).notifs = [] ∧
    (loopIter msp sid st ev).brk = false ∧
    (loopIter msp sid st ev).gpioRead = false ∧
    runLoop msp sid st (ev :: evs) = runLoop msp sid st evs ∧
    (∀ ev₁ : IterEvent, ((loopIter msp sid st ev₁).gpioRead = true ↔
      ∃ n : Nat, ev₁.outcome = ReadOutcome.ok n ∧ 0 < n)) := by
  obtain ⟨bi, cu⟩ := st
  refine ⟨?_, ?_, ?_, ?_, ?_, ?_⟩
  · simp [loopIter, readFromStream, ho]
  · simp [loopIter, readFromStream, ho]
  · simp [loopIter, readFromStream, ho]
  · simp [loopIter, readFromStream, ho]
  · simp [runLoop, loopIter, readFromStream, hs, ho]
  · intro ev₁
    obtain ⟨sd1, oc1, g1⟩ := ev₁
    cases oc1 with
    | ok n =>
      rcases Nat.eq_zero_or_pos n with hn | hn
      · subst hn
        simp [loopIter, readFromStream]
      · cases g1 <;> simp [loopIter, readFromStream, hn]
    | overrun q => simp [loopIter, readFromStream]
    | fatalError => simp [loopIter, readFromStream]

/-- Witness for claim C9: a 0-sample read with the GPIO line high changes nothing and
the run equals the run over the remaining trace. -/
theorem gpio_C9_zero_read_noop_witness :
    runLoop 160 7 ⟨0, 0⟩ (⟨false, ReadOutcome.ok 0, true⟩ ::
        [⟨false, ReadOutcome.ok 160, true⟩]) =
      runLoop 160 7 ⟨0, 0⟩ [⟨false, ReadOutcome.ok 160, true⟩] :=
  (gpio_C9_zero_read_noop 160 7 ⟨0, 0⟩ ⟨false, ReadOutcome.ok 0, true⟩
    [⟨false, ReadOutcome.ok 160, true⟩] rfl rfl).2.2.2.2.1

end GPIOKwd
